import Mathlib

/-!
Shallow embedding of the Navratri MERN backend (Express + Mongoose server in
the repository): user registration/login and per-user item CRUD.

The persistence layer (MongoDB via Mongoose) is modelled as explicit state:
a list of user documents and a list of item documents kept in insertion
order, together with counters supplying fresh `_id` values and a logical
clock supplying the `createdAt`/`updatedAt` timestamps added by the
schemas' timestamps option.

Mongoose behaviour reflected in the model:
- the schema options trim name/email (user schema) and title/description
  (item schema) with a trim setter applied when a document is created or
  updated; `required` validation runs on the trimmed value at create time,
  and a validation failure is thrown, reaching the route's catch block;
- the unique index on the user email field rejects an insert whose
  (trimmed) email is already stored, surfacing error code 11000, which the
  register route maps to HTTP 409;
- findOne / findById return the first document matching the filter in
  collection order; find({userId}).sort({createdAt: -1}) returns the
  matching documents ordered by createdAt descending;
- a serialized document exposes `_id`, the schema paths in declaration
  order, the two timestamp paths, and the version key `__v`.

Request bodies: every checked field is a JSON string or absent, and the
route guards use JavaScript falsiness (`!x`), which on that domain holds
exactly for the empty string and for an absent field; both behave
identically downstream, so absent string fields are modelled as `""`
(except the item description, whose absence triggers the schema default
and is therefore kept as an `Option`).
-/

namespace Navratri

/-- JavaScript `String.prototype.trim`, as invoked by the Mongoose trim
setter: removes leading and trailing whitespace. -/
def trimString (s : String) : String :=
  ⟨((s.data.dropWhile Char.isWhitespace).reverse.dropWhile Char.isWhitespace).reverse⟩

/-- A stored User document (userSchema: name/email/password, trimmed name
and email, unique email, timestamps). -/
structure UserDoc where
  _id : Nat
  name : String
  email : String
  password : String
  createdAt : Nat
  updatedAt : Nat
deriving Repr, DecidableEq

/-- A stored Item document (itemSchema: trimmed title, trimmed description
defaulting to empty, string userId, timestamps). -/
structure ItemDoc where
  _id : Nat
  title : String
  description : String
  userId : String
  createdAt : Nat
  updatedAt : Nat
deriving Repr, DecidableEq

/-- The durable state behind the API: both collections in insertion order,
fresh-identifier counters, and the logical clock used for timestamps. -/
structure DB where
  users : List UserDoc
  items : List ItemDoc
  nextUserId : Nat
  nextItemId : Nat
  now : Nat
deriving Repr, DecidableEq

/-- The state of a freshly connected database: both collections empty. -/
def dbEmpty : DB :=
  { users := [], items := [], nextUserId := 0, nextItemId := 0, now := 0 }

/-- User.findOne with an email filter: first stored user whose email field
equals the given value. -/
def findByEmail : List UserDoc → String → Option UserDoc
  | [], _ => none
  | u :: us, e => if u.email = e then some u else findByEmail us e

/-- Item.findById: first stored item whose `_id` equals the given value
(the `_id` index is unique, so at most one exists in reachable states). -/
def findItem : List ItemDoc → Nat → Option ItemDoc
  | [], _ => none
  | i :: l, id => if i._id = id then some i else findItem l id

/-- Outcome of POST /register. -/
inductive RegisterResult where
  /-- HTTP 400, body status "error": some required field was falsy. -/
  | validationError
  /-- HTTP 409, body status "error": email already exists (pre-check or E11000). -/
  | conflict
  /-- HTTP 500, body status "error": unanticipated error (e.g. a Mongoose
  required-validation failure after trimming). -/
  | internalError
  /-- HTTP 201, body status "Success" with userId, name, email of the saved user. -/
  | success (userId : Nat) (name email : String)
deriving Repr, DecidableEq

/-- HTTP status code attached to each register outcome by the route. -/
def RegisterResult.httpStatus : RegisterResult → Nat
  | .validationError => 400
  | .conflict => 409
  | .internalError => 500
  | .success _ _ _ => 201

/-- The register route's catch block (err.code 11000 means the unique email
index rejected the insert): maps a surfaced error code to the HTTP status. -/
def registerCatchStatus (code : Option Nat) : Nat :=
  if code = some 11000 then 409 else 500

/-- The user document stored by a successful User.create: name and email
pass through the trim setters, the password is stored verbatim, and the
timestamps option stamps the clock into createdAt/updatedAt. -/
def newUser (db : DB) (name email password : String) : UserDoc :=
  { _id := db.nextUserId, name := trimString name, email := trimString email,
    password := password, createdAt := db.now, updatedAt := db.now }

/-- POST /register: falsiness validation, duplicate pre-check via findOne,
then User.create (trim setters, required validation, unique email index).
Returns the outcome and the resulting state. -/
def register (db : DB) (name email password : String) : RegisterResult × DB :=
  if name = "" ∨ email = "" ∨ password = "" then
    (.validationError, db)
  else
    match findByEmail db.users email with
    | some _ => (.conflict, db)
    | none =>
      if trimString name = "" ∨ trimString email = "" then
        (.internalError, db)
      else
        match findByEmail db.users (trimString email) with
        | some _ => (.conflict, db)
        | none =>
          let u := newUser db name email password
          (.success u._id u.name u.email,
           { db with users := db.users ++ [u],
                     nextUserId := db.nextUserId + 1, now := db.now + 1 })

/-- Outcome of POST /login. -/
inductive LoginResult where
  /-- HTTP 400: email or password falsy. -/
  | validationError
  /-- HTTP 404: no user with that email. -/
  | notFound
  /-- HTTP 401: stored password differs from the supplied one. -/
  | unauthorized
  /-- HTTP 200, body status "Success" with userId, name, email. -/
  | success (userId : Nat) (name email : String)
deriving Repr, DecidableEq

/-- HTTP status code attached to each login outcome by the route. -/
def LoginResult.httpStatus : LoginResult → Nat
  | .validationError => 400
  | .notFound => 404
  | .unauthorized => 401
  | .success _ _ _ => 200

/-- POST /login: falsiness validation, findOne by email, plain-text
password comparison. Reads the state only. -/
def login (db : DB) (email password : String) : LoginResult :=
  if email = "" ∨ password = "" then
    .validationError
  else
    match findByEmail db.users email with
    | none => .notFound
    | some u =>
      if u.password ≠ password then .unauthorized
      else .success u._id u.name u.email

/-- Outcome of POST /items. -/
inductive CreateItemResult where
  /-- HTTP 400: title or userId falsy. -/
  | validationError
  /-- HTTP 500: unanticipated error (e.g. required validation after trimming). -/
  | internalError
  /-- HTTP 201, body status "Success" with the created item. -/
  | success (item : ItemDoc)
deriving Repr, DecidableEq

/-- HTTP status code attached to each item-creation outcome by the route. -/
def CreateItemResult.httpStatus : CreateItemResult → Nat
  | .validationError => 400
  | .internalError => 500
  | .success _ => 201

/-- POST /items: falsiness validation on title and userId, then
Item.create (trim setters, description defaulting to empty when absent,
required validation on the trimmed title). The route never consults the
user collection. -/
def createItem (db : DB) (title : String) (description : Option String)
    (userId : String) : CreateItemResult × DB :=
  if title = "" ∨ userId = "" then
    (.validationError, db)
  else
    let title' := trimString title
    let descr := trimString (description.getD "")
    if title' = "" then
      (.internalError, db)
    else
      let it : ItemDoc :=
        { _id := db.nextItemId, title := title', description := descr,
          userId := userId, createdAt := db.now, updatedAt := db.now }
      (.success it,
       { db with items := db.items ++ [it],
                 nextItemId := db.nextItemId + 1, now := db.now + 1 })

/-- Insert an item into a list kept in descending createdAt order, as the
sort key comparison of sort({createdAt: -1}) places it. -/
def insertDesc (x : ItemDoc) : List ItemDoc → List ItemDoc
  | [] => [x]
  | y :: ys => if y.createdAt ≤ x.createdAt then x :: y :: ys else y :: insertDesc x ys

/-- sort({createdAt: -1}): order a list of items by createdAt descending. -/
def sortByCreatedDesc (l : List ItemDoc) : List ItemDoc :=
  l.foldr insertDesc []

/-- GET /items/:userId: Item.find({userId}).sort({createdAt: -1}); the
response is the bare array of matching items, with no envelope, under
HTTP 200. -/
def listItems (db : DB) (userId : String) : List ItemDoc :=
  sortByCreatedDesc (db.items.filter (fun i => i.userId == userId))

/-- Outcome of PUT /items/:id. -/
inductive UpdateItemResult where
  /-- HTTP 400: title or description falsy. -/
  | validationError
  /-- HTTP 404: no item with that identifier. -/
  | notFound
  /-- HTTP 200, body status "Success" with the updated item. -/
  | success (item : ItemDoc)
deriving Repr, DecidableEq

/-- HTTP status code attached to each item-update outcome by the route. -/
def UpdateItemResult.httpStatus : UpdateItemResult → Nat
  | .validationError => 400
  | .notFound => 404
  | .success _ => 200

/-- The document produced by findByIdAndUpdate's update clause on a stored
item: the new title and description pass through the trim setters, and the
timestamps option refreshes updatedAt; every other path is untouched. -/
def applyItemUpdate (it : ItemDoc) (title description : String) (now' : Nat) :
    ItemDoc :=
  { it with
      title := trimString title, description := trimString description,
      updatedAt := now' }

/-- PUT /items/:id: falsiness validation on title and description, then
findByIdAndUpdate with the new values returning the updated document. -/
def updateItem (db : DB) (id : Nat) (title description : String) :
    UpdateItemResult × DB :=
  if title = "" ∨ description = "" then
    (.validationError, db)
  else
    match findItem db.items id with
    | none => (.notFound, db)
    | some it =>
      let it' := applyItemUpdate it title description db.now
      (.success it',
       { db with items := db.items.map (fun j => if j._id = id then it' else j),
                 now := db.now + 1 })

/-- Outcome of DELETE /items/:id. -/
inductive DeleteItemResult where
  /-- HTTP 404: no item with that identifier. -/
  | notFound
  /-- HTTP 200, body status "Success" with a confirmation message. -/
  | success
deriving Repr, DecidableEq

/-- HTTP status code attached to each item-deletion outcome by the route. -/
def DeleteItemResult.httpStatus : DeleteItemResult → Nat
  | .notFound => 404
  | .success => 200

/-- DELETE /items/:id: findByIdAndDelete; removes the document with the
given `_id` when one exists. -/
def deleteItem (db : DB) (id : Nat) : DeleteItemResult × DB :=
  match findItem db.items id with
  | none => (.notFound, db)
  | some _ =>
    (.success, { db with items := db.items.filter (fun i => i._id ≠ id) })

/-- JSON serialization of a stored item document, as Express sends it:
MongoDB `_id`, the schema paths in declaration order, the timestamp paths,
and the Mongoose version key `__v`. Values are rendered as strings purely
to keep the model first-order; the claims under study concern the keys. -/
def serializeItem (it : ItemDoc) : List (String × String) :=
  [("_id", toString it._id), ("title", it.title),
   ("description", it.description), ("userId", it.userId),
   ("createdAt", toString it.createdAt), ("updatedAt", toString it.updatedAt),
   ("__v", "0")]

/-- The field names of a serialized item document. -/
def itemJsonKeys (it : ItemDoc) : List String :=
  (serializeItem it).map Prod.fst

/-- No two stored users share an email (the unique-index invariant). -/
abbrev EmailsUnique (us : List UserDoc) : Prop :=
  us.Pairwise (fun a b => a.email ≠ b.email)

/-- The item collection is in strictly increasing createdAt order — true of
every reachable state, because the logical clock advances past each newly
created item's timestamp. -/
abbrev Chrono (l : List ItemDoc) : Prop :=
  l.Pairwise (fun a b => a.createdAt < b.createdAt)

/-! ### Supporting lemmas about the store helpers -/

theorem findByEmail_eq_none {us : List UserDoc} {e : String} :
    findByEmail us e = none ↔ ∀ u ∈ us, u.email ≠ e := by
  induction us with
  | nil => simp [findByEmail]
  | cons u us ih =>
    by_cases h : u.email = e
    · simp [findByEmail, h]
    · simp [findByEmail, h, ih]

theorem findByEmail_isSome {us : List UserDoc} {e : String} :
    (findByEmail us e).isSome ↔ ∃ u ∈ us, u.email = e := by
  induction us with
  | nil => simp [findByEmail]
  | cons u us ih =>
    by_cases h : u.email = e
    · simp [findByEmail, h]
    · simp [findByEmail, h, ih]

theorem findByEmail_mem {us : List UserDoc} {u : UserDoc} {e : String}
    (h : findByEmail us e = some u) : u ∈ us ∧ u.email = e := by
  induction us with
  | nil => simp [findByEmail] at h
  | cons v us ih =>
    by_cases hv : v.email = e
    · simp [findByEmail, hv] at h
      exact ⟨by simp [← h], by rw [← h]; exact hv⟩
    · simp [findByEmail, hv] at h
      rcases ih h with ⟨hm, he⟩
      exact ⟨List.mem_cons_of_mem _ hm, he⟩

theorem findByEmail_append_right {us vs : List UserDoc} {e : String}
    (h : findByEmail us e = none) :
    findByEmail (us ++ vs) e = findByEmail vs e := by
  induction us with
  | nil => simp
  | cons u us ih =>
    by_cases hu : u.email = e
    · simp [findByEmail, hu] at h
    · simp [findByEmail, hu] at h ⊢
      exact ih h

theorem findItem_eq_none {l : List ItemDoc} {id : Nat} :
    findItem l id = none ↔ ∀ i ∈ l, i._id ≠ id := by
  induction l with
  | nil => simp [findItem]
  | cons i l ih =>
    by_cases h : i._id = id
    · simp [findItem, h]
    · simp [findItem, h, ih]

theorem findItem_isSome {l : List ItemDoc} {id : Nat} :
    (findItem l id).isSome ↔ ∃ i ∈ l, i._id = id := by
  induction l with
  | nil => simp [findItem]
  | cons i l ih =>
    by_cases h : i._id = id
    · simp [findItem, h]
    · simp [findItem, h, ih]

theorem findItem_mem {l : List ItemDoc} {i : ItemDoc} {id : Nat}
    (h : findItem l id = some i) : i ∈ l ∧ i._id = id := by
  induction l with
  | nil => simp [findItem] at h
  | cons j l ih =>
    by_cases hj : j._id = id
    · simp [findItem, hj] at h
      exact ⟨by simp [← h], by rw [← h]; exact hj⟩
    · simp [findItem, hj] at h
      rcases ih h with ⟨hm, he⟩
      exact ⟨List.mem_cons_of_mem _ hm, he⟩

theorem insertDesc_of_forall_lt {x : ItemDoc} {m : List ItemDoc}
    (h : ∀ y ∈ m, x.createdAt < y.createdAt) : insertDesc x m = m ++ [x] := by
  induction m with
  | nil => rfl
  | cons y ys ih =>
    have hy : ¬ y.createdAt ≤ x.createdAt := by
      have := h y (List.mem_cons_self _ _)
      omega
    simp only [insertDesc, if_neg hy, List.cons_append]
    rw [ih (fun z hz => h z (List.mem_cons_of_mem _ hz))]

theorem sortByCreatedDesc_of_chrono {l : List ItemDoc} (h : Chrono l) :
    sortByCreatedDesc l = l.reverse := by
  induction l with
  | nil => rfl
  | cons x xs ih =>
    rcases (List.pairwise_cons.mp h) with ⟨hx, hxs⟩
    show insertDesc x (sortByCreatedDesc xs) = (x :: xs).reverse
    rw [ih hxs, insertDesc_of_forall_lt (fun y hy => hx y (List.mem_reverse.mp hy)),
      List.reverse_cons]

theorem chrono_filter {l : List ItemDoc} (p : ItemDoc → Bool) (h : Chrono l) :
    Chrono (l.filter p) :=
  List.Pairwise.sublist (List.filter_sublist l) h

/-! ### Concrete fixtures used by witnesses and counterexamples -/

/-- A stored user, as produced by a successful registration. -/
def uAna : UserDoc :=
  { _id := 0, name := "Ana", email := "a@x.com", password := "p",
    createdAt := 0, updatedAt := 0 }

/-- A state holding the single user `uAna`. -/
def dbAna : DB :=
  { users := [uAna], items := [], nextUserId := 1, nextItemId := 0, now := 1 }

/-- A stored item, as produced by a successful item creation. -/
def itMilk : ItemDoc :=
  { _id := 0, title := "Milk", description := "2%", userId := "u1",
    createdAt := 0, updatedAt := 0 }

/-- A state holding the single item `itMilk`. -/
def dbMilk : DB :=
  { users := [], items := [itMilk], nextUserId := 0, nextItemId := 1, now := 1 }

/-- Three items created in order for two different owners. -/
def itA : ItemDoc :=
  { _id := 0, title := "A", description := "", userId := "u1",
    createdAt := 0, updatedAt := 0 }

/-- Second item of owner u1, created after `itA`. -/
def itB : ItemDoc :=
  { _id := 1, title := "B", description := "", userId := "u1",
    createdAt := 1, updatedAt := 1 }

/-- An item of the other owner u2, created last. -/
def itC : ItemDoc :=
  { _id := 2, title := "C", description := "", userId := "u2",
    createdAt := 2, updatedAt := 2 }

/-- A state holding `itA`, `itB`, `itC` in creation order. -/
def dbThree : DB :=
  { users := [], items := [itA, itB, itC], nextUserId := 0, nextItemId := 3, now := 3 }

/-! ### Claim theorems -/

/-- C1 counterexample: the whitespace-padded name " Ana " is valid and
non-empty under the register route's check, yet the schema trims the
stored name, so registration and the subsequent login both return the name
"Ana", which differs from the name supplied to Register. -/
theorem C1_counterexample :
    (register dbEmpty " Ana " "a@x.com" "p").1 = .success 0 "Ana" "a@x.com"
  ∧ login (register dbEmpty " Ana " "a@x.com" "p").2 "a@x.com" "p" =
      .success 0 "Ana" "a@x.com"
  ∧ ("Ana" : String) ≠ " Ana " := by
  refine ⟨by decide, by decide, by decide⟩

/-- C1 (amended): for non-empty name, email and password whose name and
email carry no surrounding whitespace, with the email not yet registered,
Register succeeds (201) storing the user, and Authenticate with the same
email and password then succeeds (200), both returning the supplied name
and email together with the same freshly assigned userId. -/
theorem C1_register_then_login (db : DB) (name email password : String)
    (hn : name ≠ "") (he : email ≠ "") (hp : password ≠ "")
    (hnt : trimString name = name) (het : trimString email = email)
    (hfresh : ∀ u ∈ db.users, u.email ≠ email) :
    register db name email password =
      (.success db.nextUserId name email,
       { db with users := db.users ++ [newUser db name email password],
                 nextUserId := db.nextUserId + 1, now := db.now + 1 })
  ∧ login (register db name email password).2 email password =
      .success db.nextUserId name email := by
  have hnone : findByEmail db.users email = none := findByEmail_eq_none.mpr hfresh
  have hcond : ¬(name = "" ∨ email = "" ∨ password = "") := by simp [hn, he, hp]
  have hreg : register db name email password =
      (.success db.nextUserId name email,
       { db with users := db.users ++ [newUser db name email password],
                 nextUserId := db.nextUserId + 1, now := db.now + 1 }) := by
    simp [register, hcond, hnone, hnt, het, hn, he, hp, newUser]
  refine ⟨hreg, ?_⟩
  rw [hreg]
  have hfind : findByEmail (db.users ++ [newUser db name email password]) email =
      some (newUser db name email password) := by
    rw [findByEmail_append_right hnone]
    simp [findByEmail, newUser, het]
  simp only [login, he, hp, hfind]
  simp [newUser, hnt, het, he, hp]

/-- C1 witness: registering Ana on the empty store and logging in with the
same credentials returns her name, email and userId 0. -/
theorem C1_register_then_login_witness :
    register dbEmpty "Ana" "a@x.com" "p" =
      (.success dbEmpty.nextUserId "Ana" "a@x.com",
       { dbEmpty with users := dbEmpty.users ++ [newUser dbEmpty "Ana" "a@x.com" "p"],
                      nextUserId := dbEmpty.nextUserId + 1, now := dbEmpty.now + 1 })
  ∧ login (register dbEmpty "Ana" "a@x.com" "p").2 "a@x.com" "p" =
      .success dbEmpty.nextUserId "Ana" "a@x.com" :=
  C1_register_then_login dbEmpty "Ana" "a@x.com" "p" (by decide) (by decide)
    (by decide) (by decide) (by decide) (by decide)

/-- C3 counterexample: in a state whose only user holds email "a@x.com"
(so emails are unique and that email is present), Register with an empty
name and that same email is answered 400 ValidationError, not 409
ConflictError — the falsiness check runs before the duplicate check, so
the conflict answer is not independent of the supplied name and password. -/
theorem C3_counterexample :
    EmailsUnique dbAna.users
  ∧ (∃ u ∈ dbAna.users, u.email = "a@x.com")
  ∧ (register dbAna "" "a@x.com" "q").1 = .validationError
  ∧ RegisterResult.validationError ≠ .conflict
  ∧ RegisterResult.httpStatus .validationError = 400
  ∧ RegisterResult.httpStatus .conflict = 409 := by
  refine ⟨by decide, ⟨uAna, by decide, rfl⟩, by decide, by decide, rfl, rfl⟩

/-- C3 (amended): with non-empty (truthy) name and password, Register
against an already-present email fails with ConflictError 409 and inserts
nothing; a uniqueness violation surfaced at insert time — the trimmed
email already stored, surfacing the duplicate-key code 11000 — is mapped
to the same 409 with nothing inserted; and every Register call preserves
the invariant that no two users share an email. -/
theorem C3_email_uniqueness (db : DB) (name email password : String) :
    (name ≠ "" → password ≠ "" → email ≠ "" →
      (∃ u ∈ db.users, u.email = email) →
      register db name email password = (.conflict, db))
  ∧ (name ≠ "" → password ≠ "" → email ≠ "" →
      (∀ u ∈ db.users, u.email ≠ email) →
      trimString name ≠ "" → trimString email ≠ "" →
      (∃ u ∈ db.users, u.email = trimString email) →
      register db name email password = (.conflict, db))
  ∧ (EmailsUnique db.users →
      EmailsUnique (register db name email password).2.users)
  ∧ RegisterResult.httpStatus .conflict = 409
  ∧ registerCatchStatus (some 11000) = 409
  ∧ (∀ c, c ≠ some 11000 → registerCatchStatus c = 500) := by
  refine ⟨?_, ?_, ?_, rfl, rfl, ?_⟩
  · intro hn hp he hex
    have hcond : ¬(name = "" ∨ email = "" ∨ password = "") := by simp [hn, he, hp]
    have hs : (findByEmail db.users email).isSome := findByEmail_isSome.mpr hex
    rcases Option.isSome_iff_exists.mp hs with ⟨u, hu⟩
    simp [register, hcond, hu]
  · intro hn hp he hall htn hte hex
    have hcond : ¬(name = "" ∨ email = "" ∨ password = "") := by simp [hn, he, hp]
    have hnone : findByEmail db.users email = none := findByEmail_eq_none.mpr hall
    have hcond2 : ¬(trimString name = "" ∨ trimString email = "") := by
      simp [htn, hte]
    have hs : (findByEmail db.users (trimString email)).isSome :=
      findByEmail_isSome.mpr hex
    rcases Option.isSome_iff_exists.mp hs with ⟨u, hu⟩
    simp [register, hcond, hnone, hcond2, hu]
  · intro huniq
    by_cases h1 : name = "" ∨ email = "" ∨ password = ""
    · simpa [register, h1] using huniq
    · cases heq : findByEmail db.users email with
      | some u => simpa [register, h1, heq] using huniq
      | none =>
        by_cases h2 : trimString name = "" ∨ trimString email = ""
        · simpa [register, h1, heq, h2] using huniq
        · cases heq2 : findByEmail db.users (trimString email) with
          | some u => simpa [register, h1, heq, h2, heq2] using huniq
          | none =>
            have hall := findByEmail_eq_none.mp heq2
            have hgoal : EmailsUnique (db.users ++ [newUser db name email password]) := by
              refine List.pairwise_append.mpr ⟨huniq, List.pairwise_singleton _ _, ?_⟩
              intro a ha b hb
              simp only [List.mem_singleton] at hb
              subst hb
              simpa [newUser] using hall a ha
            simpa [register, h1, heq, h2, heq2] using hgoal
  · intro c hc
    simp [registerCatchStatus, hc]

/-- C3 witness: registering a second account under the already-present
email "a@x.com" with a different name and password is answered 409 and
inserts nothing. -/
theorem C3_email_uniqueness_witness :
    register dbAna "Bo2" "a@x.com" "q" = (.conflict, dbAna) :=
  (C3_email_uniqueness dbAna "Bo2" "a@x.com" "q").1 (by decide) (by decide)
    (by decide) ⟨uAna, by decide, rfl⟩

/-- C2 counterexample: the item created by POST /items on the empty store
serializes with fields named `_id` and `userId`; neither an `id` field nor
an `ownerId` field is present, contradicting the claimed field list. -/
theorem C2_counterexample :
    (createItem dbEmpty "Milk" (some "2%") "u1").1 = .success itMilk
  ∧ "id" ∉ itemJsonKeys itMilk
  ∧ "ownerId" ∉ itemJsonKeys itMilk := by
  refine ⟨by decide, by decide, by decide⟩

/-- C2 (amended): every item document returned by the API (Create, List,
Update) serializes with exactly the fields _id, title, description,
userId, createdAt, updatedAt, __v — the identifier field is named `_id`
and the owner field is named `userId`. -/
theorem C2_item_serialization_fields (it : ItemDoc) :
    itemJsonKeys it =
      ["_id", "title", "description", "userId", "createdAt", "updatedAt", "__v"] := rfl

/-- C10: a whitespace-only name passes the register route's falsiness
check (it is a non-empty string), the schema then trims it to empty and
the required validation rejects it, and the request is answered 500
(InternalError), not 400 (ValidationError). -/
theorem C10_whitespace_name_internal_error :
    (" " : String) ≠ ""
  ∧ trimString " " = ""
  ∧ register dbEmpty " " "a@x.com" "p" = (.internalError, dbEmpty)
  ∧ RegisterResult.httpStatus .internalError = 500
  ∧ RegisterResult.internalError ≠ .validationError
  ∧ RegisterResult.httpStatus .validationError = 400 := by
  refine ⟨by decide, by decide, by decide, rfl, by decide, rfl⟩

/-- C4: the login route follows the error taxonomy exactly: a falsy email
or password gives ValidationError 400; otherwise an email matching no
stored user gives NotFoundError 404; otherwise a stored password not
equal character-for-character to the supplied one gives UnauthorizedError
401; otherwise the route answers 200 with the matching user's userId,
name and email. -/
theorem C4_login_taxonomy (db : DB) (email password : String) :
    ((email = "" ∨ password = "") → login db email password = .validationError)
  ∧ (email ≠ "" → password ≠ "" → (∀ u ∈ db.users, u.email ≠ email) →
      login db email password = .notFound)
  ∧ (∀ u : UserDoc, email ≠ "" → password ≠ "" →
      findByEmail db.users email = some u → u.password ≠ password →
      login db email password = .unauthorized)
  ∧ (∀ u : UserDoc, email ≠ "" → password ≠ "" →
      findByEmail db.users email = some u → u.password = password →
      login db email password = .success u._id u.name u.email)
  ∧ LoginResult.httpStatus .validationError = 400
  ∧ LoginResult.httpStatus .notFound = 404
  ∧ LoginResult.httpStatus .unauthorized = 401
  ∧ (∀ uid n e, LoginResult.httpStatus (.success uid n e) = 200) := by
  refine ⟨?_, ?_, ?_, ?_, rfl, rfl, rfl, fun _ _ _ => rfl⟩
  · intro h
    simp [login, h]
  · intro he hp hall
    have hnone : findByEmail db.users email = none := findByEmail_eq_none.mpr hall
    simp [login, he, hp, hnone]
  · intro u he hp hfind hpw
    simp [login, he, hp, hfind, hpw]
  · intro u he hp hfind hpw
    simp [login, he, hp, hfind, hpw]

/-- C4 witness: logging in with the stored credentials of `uAna` returns
200 with her userId, name and email. -/
theorem C4_login_taxonomy_witness :
    login dbAna "a@x.com" "p" = .success 0 "Ana" "a@x.com" :=
  (C4_login_taxonomy dbAna "a@x.com" "p").2.2.2.1 uAna (by decide) (by decide)
    (by decide) (by decide)

/-- C7: updating a non-existent item identifier with non-empty title and
description is answered 404 NotFoundError and leaves the state unchanged. -/
theorem C7_update_missing (db : DB) (id : Nat) (title description : String)
    (ht : title ≠ "") (hd : description ≠ "")
    (hm : ∀ i ∈ db.items, i._id ≠ id) :
    updateItem db id title description = (.notFound, db)
  ∧ UpdateItemResult.httpStatus .notFound = 404 := by
  have hf : findItem db.items id = none := findItem_eq_none.mpr hm
  refine ⟨?_, rfl⟩
  simp [updateItem, ht, hd, hf]

/-- C7 witness: updating the absent identifier 5 in a one-item store fails
with NotFound and changes nothing. -/
theorem C7_update_missing_witness :
    updateItem dbMilk 5 "Bread" "Fresh" = (.notFound, dbMilk) :=
  (C7_update_missing dbMilk 5 "Bread" "Fresh" (by decide) (by decide) (by decide)).1

/-- C9: deleting an identifier present in the store succeeds with 200 and
removes every item carrying it, and a second delete of the same identifier
is answered 404 NotFoundError, leaving the state as after the first. -/
theorem C9_delete_idempotent (db : DB) (id : Nat)
    (h : ∃ i ∈ db.items, i._id = id) :
    (deleteItem db id).1 = .success
  ∧ (∀ j ∈ (deleteItem db id).2.items, j._id ≠ id)
  ∧ deleteItem (deleteItem db id).2 id = (.notFound, (deleteItem db id).2)
  ∧ DeleteItemResult.httpStatus .success = 200
  ∧ DeleteItemResult.httpStatus .notFound = 404 := by
  have hs : (findItem db.items id).isSome := findItem_isSome.mpr h
  rcases Option.isSome_iff_exists.mp hs with ⟨it, hf⟩
  have hdel : deleteItem db id =
      (.success, { db with items := db.items.filter (fun i => i._id ≠ id) }) := by
    simp [deleteItem, hf]
  have hnomem : ∀ j ∈ (deleteItem db id).2.items, j._id ≠ id := by
    rw [hdel]
    intro j hj
    have := List.of_mem_filter hj
    simpa using this
  refine ⟨by rw [hdel], hnomem, ?_, rfl, rfl⟩
  have hnone : findItem (deleteItem db id).2.items id = none :=
    findItem_eq_none.mpr hnomem
  generalize hgen : (deleteItem db id).2 = s at hnone ⊢
  simp [deleteItem, hnone]

/-- C5: in a chronologically ordered store (true of every reachable
state), listing the items of owner O returns exactly the stored items
whose userId equals O, newest first (the reverse of their creation order);
the result is the empty bare array when no item matches; and creating an
item for a different owner leaves the listing unchanged. -/
theorem C5_list_by_owner (db : DB) (o : String) (hc : Chrono db.items) :
    listItems db o = (db.items.filter (fun i => i.userId == o)).reverse
  ∧ ((∀ i ∈ db.items, i.userId ≠ o) → listItems db o = [])
  ∧ (∀ (t : String) (d : Option String) (o2 : String), o2 ≠ o →
      listItems (createItem db t d o2).2 o = listItems db o) := by
  have hmain : listItems db o = (db.items.filter (fun i => i.userId == o)).reverse :=
    sortByCreatedDesc_of_chrono (chrono_filter _ hc)
  refine ⟨hmain, ?_, ?_⟩
  · intro hall
    have hfil : db.items.filter (fun i => i.userId == o) = [] := by
      rw [List.filter_eq_nil_iff]
      intro i hi
      simpa using hall i hi
    rw [hmain, hfil]
    rfl
  · intro t d o2 ho2
    by_cases h1 : t = "" ∨ o2 = ""
    · simp [createItem, h1]
    · by_cases h2 : trimString t = ""
      · simp [createItem, h1, h2]
      · have hne : (o2 == o) = false := by simpa using ho2
        simp [listItems, createItem, h1, h2, List.filter_append, hne]

/-- C5 witness: with two items of owner u1 and a later item of owner u2,
listing u1 returns exactly the two u1 items, newest first. -/
theorem C5_list_by_owner_witness :
    listItems dbThree "u1" = [itB, itA] := by
  rw [(C5_list_by_owner dbThree "u1" (by decide)).1]
  decide

/-- C6: POST /items is answered 400 ValidationError exactly when title or
userId is falsy; with a truthy title that survives trimming, creation
succeeds with 201, appending an item with a fresh identifier whose userId
is the caller-supplied owner and whose description defaults to empty when
omitted; and the outcome never consults the user collection, so an owner
naming no existing user is accepted. -/
theorem C6_create_item (db : DB) (title : String) (d : Option String) (owner : String)
    (hid : ∀ i ∈ db.items, i._id < db.nextItemId) :
    ((createItem db title d owner).1 = .validationError ↔ (title = "" ∨ owner = ""))
  ∧ (title ≠ "" → owner ≠ "" → trimString title ≠ "" →
      ∃ it : ItemDoc,
        createItem db title d owner =
          (.success it,
           { db with items := db.items ++ [it], nextItemId := db.nextItemId + 1,
                     now := db.now + 1 })
        ∧ it.userId = owner
        ∧ it.description = trimString (d.getD "")
        ∧ (d = none → it.description = "")
        ∧ (∀ i ∈ db.items, i._id ≠ it._id))
  ∧ (∀ us : List UserDoc,
      (createItem { db with users := us } title d owner).1 =
        (createItem db title d owner).1)
  ∧ CreateItemResult.httpStatus .validationError = 400
  ∧ (∀ it, CreateItemResult.httpStatus (.success it) = 201) := by
  refine ⟨?_, ?_, ?_, rfl, fun _ => rfl⟩
  · by_cases h1 : title = "" ∨ owner = ""
    · simp [createItem, h1]
    · by_cases h2 : trimString title = ""
      · simp [createItem, h1, h2]
      · simp [createItem, h1, h2]
  · intro ht ho htr
    have h1 : ¬(title = "" ∨ owner = "") := by simp [ht, ho]
    refine ⟨{ _id := db.nextItemId, title := trimString title,
              description := trimString (d.getD ""), userId := owner,
              createdAt := db.now, updatedAt := db.now }, ?_, rfl, rfl, ?_, ?_⟩
    · simp [createItem, h1, htr]
    · intro hd
      subst hd
      rfl
    · intro i hi
      have := hid i hi
      show i._id ≠ db.nextItemId
      omega
  · intro us
    simp only [createItem]
    split_ifs <;> rfl

/-- C6 witness: creating an item on the empty store (whose user collection
is empty, so the owner names no existing user) succeeds and stores the
caller-supplied owner. -/
theorem C6_create_item_witness :
    ∃ it : ItemDoc,
      createItem dbEmpty "Milk" (some "2%") "u1" =
        (.success it,
         { dbEmpty with items := dbEmpty.items ++ [it],
                        nextItemId := dbEmpty.nextItemId + 1, now := dbEmpty.now + 1 })
      ∧ it.userId = "u1"
      ∧ it.description = trimString ((some "2%").getD "")
      ∧ (some "2%" = none → it.description = "")
      ∧ (∀ i ∈ dbEmpty.items, i._id ≠ it._id) :=
  (C6_create_item dbEmpty "Milk" (some "2%") "u1" (by decide)).2.1
    (by decide) (by decide) (by decide)

/-- C8: updating an existing item with non-empty title and description
succeeds with 200, overwriting that item's title and description (with
their trimmed values) while preserving its identifier, owner and creation
time, and every other item of the store is untouched. -/
theorem C8_update_existing (db : DB) (id : Nat) (title description : String)
    (it : ItemDoc) (ht : title ≠ "") (hd : description ≠ "")
    (hfind : findItem db.items id = some it) :
    updateItem db id title description =
      (.success (applyItemUpdate it title description db.now),
       { db with
           items := db.items.map
             (fun j => if j._id = id then applyItemUpdate it title description db.now
                       else j),
           now := db.now + 1 })
  ∧ (applyItemUpdate it title description db.now).title = trimString title
  ∧ (applyItemUpdate it title description db.now).description = trimString description
  ∧ (applyItemUpdate it title description db.now)._id = it._id
  ∧ (applyItemUpdate it title description db.now).userId = it.userId
  ∧ (applyItemUpdate it title description db.now).createdAt = it.createdAt
  ∧ (∀ j ∈ db.items, j._id ≠ id → j ∈ (updateItem db id title description).2.items)
  ∧ (∀ j ∈ (updateItem db id title description).2.items, j._id ≠ id → j ∈ db.items)
  ∧ UpdateItemResult.httpStatus (.success (applyItemUpdate it title description db.now))
      = 200 := by
  have hmem := findItem_mem hfind
  have heq : updateItem db id title description =
      (.success (applyItemUpdate it title description db.now),
       { db with
           items := db.items.map
             (fun j => if j._id = id then applyItemUpdate it title description db.now
                       else j),
           now := db.now + 1 }) := by
    simp [updateItem, ht, hd, hfind]
  have hitems : (updateItem db id title description).2.items =
      db.items.map
        (fun j => if j._id = id then applyItemUpdate it title description db.now
                  else j) := by
    rw [heq]
  refine ⟨heq, rfl, rfl, rfl, rfl, rfl, ?_, ?_, rfl⟩
  · intro j hj hjid
    rw [hitems]
    have hfx : (if j._id = id then applyItemUpdate it title description db.now else j)
        = j := if_neg hjid
    exact hfx ▸ List.mem_map_of_mem _ hj
  · intro j hj hjid
    rw [hitems] at hj
    rcases List.mem_map.mp hj with ⟨a, ha, hfa⟩
    by_cases hc : a._id = id
    · rw [if_pos hc] at hfa
      rw [← hfa] at hjid
      exact absurd hmem.2 hjid
    · rw [if_neg hc] at hfa
      rw [← hfa]
      exact ha

/-- C8 witness: updating item 0 of the one-item store overwrites its title
and description, keeps its identifier, owner and creation time, and leaves
the (empty set of) other items untouched. -/
theorem C8_update_existing_witness :
    updateItem dbMilk 0 "Bread" "Fresh" =
      (.success (applyItemUpdate itMilk "Bread" "Fresh" dbMilk.now),
       { dbMilk with
           items := dbMilk.items.map
             (fun j => if j._id = 0 then applyItemUpdate itMilk "Bread" "Fresh" dbMilk.now
                       else j),
           now := dbMilk.now + 1 })
  ∧ (applyItemUpdate itMilk "Bread" "Fresh" dbMilk.now).userId = itMilk.userId
  ∧ (applyItemUpdate itMilk "Bread" "Fresh" dbMilk.now).createdAt = itMilk.createdAt :=
  ⟨(C8_update_existing dbMilk 0 "Bread" "Fresh" itMilk (by decide) (by decide)
      (by decide)).1,
   (C8_update_existing dbMilk 0 "Bread" "Fresh" itMilk (by decide) (by decide)
      (by decide)).2.2.2.2.1,
   (C8_update_existing dbMilk 0 "Bread" "Fresh" itMilk (by decide) (by decide)
      (by decide)).2.2.2.2.2.1⟩

/-- C9 witness: deleting item 0 from the one-item store succeeds, and
deleting it again fails with NotFound without changing the state. -/
theorem C9_delete_idempotent_witness :
    (deleteItem dbMilk 0).1 = .success
  ∧ deleteItem (deleteItem dbMilk 0).2 0 = (.notFound, (deleteItem dbMilk 0).2) :=
  ⟨(C9_delete_idempotent dbMilk 0 ⟨itMilk, by decide, rfl⟩).1,
   (C9_delete_idempotent dbMilk 0 ⟨itMilk, by decide, rfl⟩).2.2.1⟩

end Navratri
